import Mathlib

/-
Verification of the txyam sharded memcached client core against its
natural-language specification.

The embedding below is a shallow model of src/txyam/client.py.  Command
objects (connected MemCacheProtocol instances) are identified by natural
numbers.  Deferreds that are awaited are modelled as settled outcomes
(Except for a fired deferred, Option for a possibly still pending one).
The hash function ketama and the helper deferredDict live in txyam/utils.py,
which is not part of the source tree here; they are modelled from the
specification: ketama as an arbitrary pure function of the key, and
deferredDict as an asynchronous result that resolves with the map of each
entry once every entry has resolved.
-/

set_option autoImplicit false

namespace Txyam

/-- Errors raised by client.py: NoServerError ("No available connected
servers to accept command.") and InvalidHostPortError ("Invalid host/port
specification."). -/
inductive YamError : Type
  | noServer
  | invalidHostPort
deriving DecidableEq, Repr

/-- Modelled from the spec: the per-backend connection slot that client.py
reads.  src/factory.py in this tree defines MemCacheClientFactory without the
client, deferred and addr attributes which client.py uses; the specification
describes the slot as holding a command object when Connected (client = some
id) and nothing otherwise, together with the backend address that stats and
version format as host:port. -/
structure Factory : Type where
  client : Option Nat
  host : String
  port : Nat
deriving DecidableEq, Repr

/-- YamClient.getActiveConnections: the client of every factory whose client
is not None, in factory order. -/
def getActiveConnections (factories : List Factory) : List Nat :=
  factories.filterMap (fun f => f.client)

/-- YamClient.getClient: when there are no active connections raise
NoServerError, otherwise return the active connection at index
ketama(key) mod count.  The key type is generic because getMultiple passes
the whole key list as the key. -/
def getClient {κ : Type} (ketama : κ → Nat) (factories : List Factory)
    (key : κ) : Except YamError Nat :=
  let hosts := getActiveConnections factories
  if hosts.length = 0 then Except.error YamError.noServer
  else Except.ok (hosts.getD (ketama key % hosts.length) 0)

/-- One entry of the request dict handed to _issueRequest: a target client
and the method name with its first positional argument (the key, or for
getMultiple the key list). -/
structure SubRequest (κ : Type) : Type where
  client : Nat
  method : String
  keyArg : κ
deriving DecidableEq, Repr

/-- the request dict built by the wrapper that _wrap returns: a single entry
mapping the client returned by getClient to (None, cmd, (key,) + args).
A NoServerError raised by getClient escapes to the caller before any request
is issued. -/
def wrapRequest {κ : Type} (ketama : κ → Nat) (factories : List Factory)
    (cmd : String) (key : κ) : Except YamError (List (SubRequest κ)) :=
  (getClient ketama factories key).map (fun c => [⟨c, cmd, key⟩])

/-- the value a verb produced by _wrap delivers: route the key with
getClient, call the named method on that single client, and unwrap the one
result (result[None]).  respond gives the reply of client c to method cmd
with key k. -/
def wrappedVerb {κ V : Type} (ketama : κ → Nat) (factories : List Factory)
    (respond : Nat → String → κ → V) (cmd : String) (key : κ) :
    Except YamError V :=
  (getClient ketama factories key).map (fun c => respond c cmd key)

/-- YamClient.getMultiple is _wrap("getMultiple"): the whole key list plays
the role of the key, so the list itself is hashed and a single sub-request
carrying every input key goes to one client. -/
def getMultipleRequests (ketamaList : List String → Nat)
    (factories : List Factory) (keys : List String) :
    Except YamError (List (SubRequest (List String))) :=
  wrapRequest ketamaList factories "getMultiple" keys

/-- Modelled from the spec (the refinement target, not source code): the
multi-key fan-out the specification describes.  Partition the keys by the
per-key router, drop keys that route to no backend, and issue one
get_multiple sub-request per backend owning a non-empty bucket. -/
def specGetMultipleRequests (ketama : String → Nat) (factories : List Factory)
    (keys : List String) : List (SubRequest (List String)) :=
  (getActiveConnections factories).filterMap (fun c =>
    let bucket := keys.filter (fun k =>
      match getClient ketama factories k with
      | Except.ok c2 => c2 == c
      | Except.error _ => false)
    if bucket.isEmpty then none else some ⟨c, "getMultiple", bucket⟩)

/-- a backend descriptor as YamClient.connect classifies it: a host/port
tuple, a plain string (port defaults to 11211), or anything else. -/
inductive HostDesc : Type
  | hp (host : String) (port : Nat)
  | name (host : String)
  | malformed
deriving DecidableEq, Repr

/-- the descriptor loop at the top of YamClient.connect: each tuple yields
(host, port), each string yields (host, 11211), and any other descriptor
raises InvalidHostPortError inside the inlineCallbacks generator, which
delivers it through the Deferred that connect returns.  Duplicates are not
inspected: each occurrence yields its own connection attempt. -/
def parseHosts : List HostDesc → Except YamError (List (String × Nat))
  | [] => Except.ok []
  | HostDesc.hp h p :: rest => (parseHosts rest).map (fun l => (h, p) :: l)
  | HostDesc.name h :: rest => (parseHosts rest).map (fun l => (h, 11211) :: l)
  | HostDesc.malformed :: _ => Except.error YamError.invalidHostPort

/-- the observable state of a Deferred: still pending, fired with a value,
or fired with a failure. -/
inductive DStatus (α : Type) : Type
  | pending
  | success (value : α)
  | failure (e : YamError)
deriving DecidableEq, Repr

/-- twisted DeferredList over the per-factory connection attempts: it fires
once every constituent deferred has fired, with one (success flag, outcome)
pair per attempt, and it never fails itself.  Each attempt outcome is none
while pending and some (ok client / error reason) once settled. -/
def deferredList {ε α : Type} (ds : List (Option (Except ε α))) :
    Option (List (Bool × Option α)) :=
  if ds.all (fun d => d.isSome) then
    some (ds.map (fun d =>
      match d with
      | some (Except.ok a) => (true, some a)
      | some (Except.error _) => (false, none)
      | none => (false, none)))
  else none

/-- YamClient.connect: classify every descriptor (a malformed one fails the
returned Deferred with InvalidHostPortError before any yield), start one
attempt per descriptor, then yield the DeferredList of every attempt and
resolve with self (modelled by the parsed host list) once all attempts have
settled, successfully or not. -/
def connect {ε : Type} (hosts : List HostDesc)
    (attempts : List (Option (Except ε Nat))) :
    DStatus (List (String × Nat)) :=
  match parseHosts hosts with
  | Except.error e => DStatus.failure e
  | Except.ok parsed =>
    match deferredList attempts with
    | none => DStatus.pending
    | some _ => DStatus.success parsed

/-- YamClient.flushAll: a DeferredList over flushAll issued to each active
connection; it resolves with the list of per-connection outcomes. -/
def flushAll {R : Type} (factories : List Factory) (respond : Nat → R) :
    List R :=
  (getActiveConnections factories).map respond

/-- YamClient.stats: one stats call per factory holding a connected client,
keyed by host:port; deferredDict (txyam/utils.py, absent from this tree) is
modelled from the spec as resolving with the map of per-entry results, here
an association list. -/
def stats {R : Type} (factories : List Factory) (respond : Nat → R) :
    List (String × R) :=
  factories.filterMap (fun f =>
    f.client.map (fun c => (f.host ++ ":" ++ toString f.port, respond c)))

/-- YamClient.version: one version call per factory holding a connected
client, keyed by host:port, aggregated exactly like stats. -/
def version {R : Type} (factories : List Factory) (respond : Nat → R) :
    List (String × R) :=
  factories.filterMap (fun f =>
    f.client.map (fun c => (f.host ++ ":" ++ toString f.port, respond c)))

/-- YamClient.pickle: serialize the value with cPickle.dumps and, when the
compress flag is set, compress the bytes with zlib.compress.  The serializer
and the compressor are parameters of the model. -/
def pickle {α β : Type} (dumps : α → β) (compress : β → β) (value : α)
    (cflag : Bool) : β :=
  let p := dumps value
  if cflag then compress p else p

/-- YamClient.unpickle: when the uncompress flag is set first decompress with
zlib.decompress, then deserialize with cPickle.loads. -/
def unpickle {α β : Type} (loads : β → α) (decompress : β → β) (value : β)
    (uflag : Bool) : α :=
  let v := if uflag then decompress value else value
  loads v

/-- handleResult inside YamClient.getPickled: the get reply is a tuple whose
last component is the stored bytes; when that component is not None it is
replaced by its unpickled value. -/
def getPickledResult {α β : Type} (loads : β → α) (decompress : β → β)
    (uflag : Bool) (result : Nat × Option β) : Nat × Option α :=
  (result.1, result.2.map (fun r => unpickle loads decompress r uflag))

/-- the public methods defined on YamClient in src/txyam/client.py, in
source order: the explicitly defined methods followed by the _wrap
assignments at the bottom of the class body. -/
def yamClientMethods : List String :=
  ["getActiveConnections", "getClient", "connect", "disconnect", "flushAll",
   "stats", "version", "pickle", "unpickle", "setPickled", "addPickled",
   "getPickled", "set", "get", "increment", "decrement", "replace", "add",
   "checkAndSet", "append", "prepend", "getMultiple", "delete"]

/-! Helper lemmas shared by the claim theorems. -/

/-- routing depends only on the list of active connections and the key. -/
theorem getClient_congr {κ : Type} (ketama : κ → Nat) {f1 f2 : List Factory}
    (key : κ) (h : getActiveConnections f1 = getActiveConnections f2) :
    getClient ketama f1 key = getClient ketama f2 key := by
  unfold getClient
  rw [h]

/-- a descriptor list without malformed entries parses successfully. -/
theorem parseHosts_ok_of_not_malformed {hosts : List HostDesc}
    (h : HostDesc.malformed ∉ hosts) :
    ∃ l, parseHosts hosts = Except.ok l := by
  induction hosts with
  | nil => exact ⟨[], rfl⟩
  | cons d rest ih =>
    have hrest : HostDesc.malformed ∉ rest :=
      fun hh => h (List.mem_cons_of_mem d hh)
    obtain ⟨l, hl⟩ := ih hrest
    cases d with
    | hp a p => exact ⟨(a, p) :: l, by simp [parseHosts, hl, Except.map]⟩
    | name a => exact ⟨(a, 11211) :: l, by simp [parseHosts, hl, Except.map]⟩
    | malformed => exact absurd (List.mem_cons_self _ _) h

/-- a descriptor list containing a malformed entry parses to
InvalidHostPortError. -/
theorem parseHosts_error_of_malformed {hosts : List HostDesc}
    (h : HostDesc.malformed ∈ hosts) :
    parseHosts hosts = Except.error YamError.invalidHostPort := by
  induction hosts with
  | nil => cases h
  | cons d rest ih =>
    cases d with
    | malformed => rfl
    | hp a p =>
      rcases List.mem_cons.mp h with h1 | h2
      · exact absurd h1 (by simp)
      · simp [parseHosts, ih h2, Except.map]
    | name a =>
      rcases List.mem_cons.mp h with h1 | h2
      · exact absurd h1 (by simp)
      · simp [parseHosts, ih h2, Except.map]

/-! Claim theorems. -/

/-- C1: the claim states that every public cache verb resolves to its miss
sentinel (None) when no backend is connected.  In src/txyam/client.py the
wrapper built by _wrap calls getClient, which raises NoServerError when the
active-connection list is empty, so the call fails instead of resolving with
None.  Evaluated at the failing input: get("key1") with both configured
backends disconnected. -/
theorem c1_get_raises_without_backends :
    wrappedVerb (fun _ : String => 0)
      [⟨none, "fake", 1⟩, ⟨none, "fake", 2⟩]
      (fun _ _ _ => (none : Option String)) "get" "key1" =
      Except.error YamError.noServer := rfl

/-- C2 counterexample: the mod-based router is not consistent-hash stable.
With hash value 4 for key k and live clients [1, 2, 3], the key routes to
client 2 (index 4 mod 3 = 1); after the third backend departs the live list
is [1, 2] and the same key routes to client 1 (index 4 mod 2 = 0), although
client 2 is still live. -/
theorem c2_routing_unstable_on_departure :
    getClient (fun _ : String => 4)
        [⟨some 1, "a", 1⟩, ⟨some 2, "b", 2⟩, ⟨some 3, "c", 3⟩] "k" =
      Except.ok 2 ∧
    getClient (fun _ : String => 4)
        [⟨some 1, "a", 1⟩, ⟨some 2, "b", 2⟩, ⟨none, "c", 3⟩] "k" =
      Except.ok 1 ∧
    (2 : Nat) ∈ getActiveConnections
        [⟨some 1, "a", 1⟩, ⟨some 2, "b", 2⟩, ⟨none, "c", 3⟩] :=
  ⟨rfl, rfl, by decide⟩

/-- C2 amended: for a fixed live-connection list and a fixed key the router
is deterministic — the routed backend depends only on the hash function, the
active-connection list and the key — but the departure or return of a
backend may reroute keys whose backend is still live, because the index is
ketama(key) mod live-count rather than a consistent-hash ring. -/
theorem c2_routing_deterministic {κ : Type} (ketama : κ → Nat)
    (f1 f2 : List Factory) (key : κ)
    (h : getActiveConnections f1 = getActiveConnections f2) :
    getClient ketama f1 key = getClient ketama f2 key :=
  getClient_congr ketama key h

/-- C2 witness: two factory lists with the same active connections route the
same key identically. -/
theorem c2_routing_deterministic_witness :
    getClient (fun _ : String => 7) [⟨some 3, "a", 1⟩, ⟨none, "b", 2⟩] "k" =
      getClient (fun _ : String => 7) [⟨none, "c", 3⟩, ⟨some 3, "d", 4⟩] "k" :=
  c2_routing_deterministic (fun _ : String => 7) _ _ "k" rfl

/-- C3: the claim states getMultiple partitions its keys by the per-key
router and issues one bucket per backend.  In src/txyam/client.py
getMultiple is _wrap("getMultiple"), which hashes the whole key list and
issues a single sub-request carrying every key to that one client; under the
same per-key routing the specified fan-out would issue two buckets; and with
no live backend the call raises NoServerError instead of dropping the
keys. -/
theorem c3_getMultiple_not_partitioned :
    getMultipleRequests (fun _ : List String => 0)
        [⟨some 1, "fake", 1⟩, ⟨some 2, "fake", 2⟩]
        ["key1", "key2", "key3", "key4", "key5"] =
      Except.ok
        [⟨1, "getMultiple", ["key1", "key2", "key3", "key4", "key5"]⟩] ∧
    specGetMultipleRequests (fun k => if k = "key5" then 0 else 1)
        [⟨some 1, "fake", 1⟩, ⟨some 2, "fake", 2⟩]
        ["key1", "key2", "key3", "key4", "key5"] =
      [⟨1, "getMultiple", ["key5"]⟩,
       ⟨2, "getMultiple", ["key1", "key2", "key3", "key4"]⟩] ∧
    getMultipleRequests (fun _ : List String => 0)
        [⟨none, "fake", 1⟩, ⟨none, "fake", 2⟩]
        ["key1", "key2", "key3", "key4", "key5"] =
      Except.error YamError.noServer :=
  ⟨rfl, by decide, rfl⟩

/-- C4: when every descriptor is well formed, the Deferred returned by
connect resolves with the client exactly when every per-backend connection
attempt has settled (successfully or not), and it never fails, no matter how
many attempts failed. -/
theorem c4_connect_settles_after_all_attempts {ε : Type}
    (hosts : List HostDesc) (attempts : List (Option (Except ε Nat)))
    (hok : HostDesc.malformed ∉ hosts) :
    ((∃ v, connect hosts attempts = DStatus.success v) ↔
      ∀ a ∈ attempts, a.isSome = true) ∧
    ∀ e, connect hosts attempts ≠ DStatus.failure e := by
  obtain ⟨l, hl⟩ := parseHosts_ok_of_not_malformed hok
  by_cases hall : attempts.all (fun d => d.isSome) = true
  · have hc : connect hosts attempts = DStatus.success l := by
      simp [connect, hl, deferredList, hall]
    rw [hc]
    constructor
    · constructor
      · intro _ a ha
        exact List.all_eq_true.mp hall a ha
      · intro _
        exact ⟨l, rfl⟩
    · intro e he
      cases he
  · have hc : connect hosts attempts = DStatus.pending := by
      simp [connect, hl, deferredList, hall]
    rw [hc]
    constructor
    · constructor
      · intro hv
        obtain ⟨v, hv⟩ := hv
        cases hv
      · intro hforall
        exact absurd (List.all_eq_true.mpr hforall) hall
    · intro e he
      cases he

/-- C4 witness: with two well-formed descriptors and both attempts settled
(one success, one failure), connect has resolved successfully. -/
theorem c4_connect_settles_witness :
    ∃ v, connect [HostDesc.name "a", HostDesc.hp "b" 11212]
        ([some (Except.ok 1), some (Except.error "boom")] :
          List (Option (Except String Nat))) = DStatus.success v :=
  (c4_connect_settles_after_all_attempts _ _ (by decide)).1.mpr (by decide)

/-- C5 counterexample: a configuration with a duplicate descriptor is not
rejected at construction time: the descriptor loop of connect accepts the
duplicate silently and produces one connection attempt per occurrence. -/
theorem c5_duplicate_hosts_accepted :
    parseHosts [HostDesc.name "localhost", HostDesc.name "localhost"] =
      Except.ok [("localhost", 11211), ("localhost", 11211)] := rfl

/-- C5 amended: duplicate descriptors are accepted (each yields its own
connection attempt); a descriptor that is neither a string nor a host/port
pair makes connect deliver InvalidHostPortError through the Deferred it
returns — the only configuration failure, and it is asynchronous, not a
synchronous raise at construction. -/
theorem c5_config_error_via_returned_deferred {ε : Type}
    (hosts : List HostDesc) (attempts : List (Option (Except ε Nat))) :
    (∃ e, connect hosts attempts = DStatus.failure e) ↔
      HostDesc.malformed ∈ hosts := by
  constructor
  · rintro ⟨e, he⟩
    by_contra hmem
    obtain ⟨l, hl⟩ := parseHosts_ok_of_not_malformed hmem
    simp only [connect, hl] at he
    cases h2 : deferredList attempts <;> rw [h2] at he <;> cases he
  · intro hmem
    refine ⟨YamError.invalidHostPort, ?_⟩
    simp [connect, parseHosts_error_of_malformed hmem]

/-- C6: the claim states the facade exposes all three multi-key verbs.
YamClient in src/txyam/client.py defines getMultiple (and the fleet verbs),
but no setMultiple and no deleteMultiple: calling either raises
AttributeError. -/
theorem c6_multi_key_verbs_missing :
    "getMultiple" ∈ yamClientMethods ∧ "flushAll" ∈ yamClientMethods ∧
    "stats" ∈ yamClientMethods ∧ "version" ∈ yamClientMethods ∧
    "setMultiple" ∉ yamClientMethods ∧ "deleteMultiple" ∉ yamClientMethods := by
  decide

/-- C7: with an empty live-connection map, flushAll resolves with the empty
list and stats and version each resolve with the empty map; none of the
three fleet verbs fails (each is a total function of the factory list). -/
theorem c7_fleet_verbs_on_empty_live_map {R S T : Type}
    (factories : List Factory) (r1 : Nat → R) (r2 : Nat → S) (r3 : Nat → T)
    (h : getActiveConnections factories = []) :
    flushAll factories r1 = [] ∧ stats factories r2 = [] ∧
      version factories r3 = [] := by
  have hnone : ∀ f ∈ factories, f.client = none :=
    List.filterMap_eq_nil_iff.mp h
  refine ⟨by simp [flushAll, h], ?_, ?_⟩
  · unfold stats
    exact List.filterMap_eq_nil_iff.mpr (fun f hf => by rw [hnone f hf]; rfl)
  · unfold version
    exact List.filterMap_eq_nil_iff.mpr (fun f hf => by rw [hnone f hf]; rfl)

/-- C7 witness: a single configured, disconnected backend gives the empty
outcomes for all three fleet verbs. -/
theorem c7_fleet_verbs_witness :
    flushAll [⟨none, "fake", 1⟩] (fun c => c) = [] ∧
    stats [⟨none, "fake", 1⟩] (fun c => c) = [] ∧
    version [⟨none, "fake", 1⟩] (fun c => c) = [] :=
  c7_fleet_verbs_on_empty_live_map _ _ _ _ rfl

/-- C8: if exactly one backend m is currently connected then getClient
returns m for every key, because any index mod 1 is 0. -/
theorem c8_single_live_backend_gets_all_keys {κ : Type} (ketama : κ → Nat)
    (factories : List Factory) (m : Nat) (key : κ)
    (h : getActiveConnections factories = [m]) :
    getClient ketama factories key = Except.ok m := by
  unfold getClient
  rw [h]
  simp [Nat.mod_one]

/-- C8 witness: with only the second backend connected, an arbitrary key
routes to it. -/
theorem c8_single_live_backend_witness :
    getClient (fun _ : String => 9) [⟨none, "a", 1⟩, ⟨some 6, "b", 2⟩] "k" =
      Except.ok 6 :=
  c8_single_live_backend_gets_all_keys _ _ 6 "k" rfl

/-- C9: getClient raises NoServerError exactly when no factory holds a
connected client; otherwise the index ketama(key) mod live-count is in
bounds and the routed client is one of the currently active connections. -/
theorem c9_getClient_total_on_live {κ : Type} (ketama : κ → Nat)
    (factories : List Factory) (key : κ) :
    (getClient ketama factories key = Except.error YamError.noServer ↔
      getActiveConnections factories = []) ∧
    ∀ c, getClient ketama factories key = Except.ok c →
      ketama key % (getActiveConnections factories).length <
        (getActiveConnections factories).length ∧
      c ∈ getActiveConnections factories := by
  by_cases h : (getActiveConnections factories).length = 0
  · refine ⟨⟨fun _ => List.length_eq_zero.mp h, fun _ => by simp [getClient, h]⟩,
      fun c hc => ?_⟩
    simp [getClient, h] at hc
  · have hpos : 0 < (getActiveConnections factories).length :=
      Nat.pos_of_ne_zero h
    constructor
    · constructor
      · intro hc
        simp [getClient, h] at hc
      · intro hnil
        rw [hnil] at h
        simp at h
    · intro c hc
      simp only [getClient, if_neg h] at hc
      have hb : ketama key % (getActiveConnections factories).length <
          (getActiveConnections factories).length := Nat.mod_lt _ hpos
      refine ⟨hb, ?_⟩
      have hgd : (getActiveConnections factories).getD
          (ketama key % (getActiveConnections factories).length) 0 = c :=
        Except.ok.inj hc
      rw [← hgd, List.getD_eq_getElem _ _ hb]
      exact List.getElem_mem hb

/-- C9 witness: with one connected client the routing succeeds and the
routed client is active. -/
theorem c9_getClient_total_witness :
    (1 : Nat) ∈ getActiveConnections [⟨some 1, "fake", 11211⟩] :=
  ((c9_getClient_total_on_live (fun _ : String => 0)
    [⟨some 1, "fake", 11211⟩] "k").2 1 rfl).2

/-- C10: pickling round-trips: when the serializer satisfies
loads (dumps x) = x and the compressor satisfies
decompress (compress p) = p, then for every value and compress flag,
unpickle (pickle v c) c = v; consequently the handleResult step of
getPickled recovers the original value from a get reply holding the bytes
that setPickled stored with the matching flag. -/
theorem c10_pickle_roundtrip {α β : Type} (dumps : α → β) (loads : β → α)
    (compress : β → β) (decompress : β → β)
    (hld : ∀ x, loads (dumps x) = x) (hdc : ∀ p, decompress (compress p) = p)
    (v : α) (c : Bool) (flags : Nat) :
    unpickle loads decompress (pickle dumps compress v c) c = v ∧
    getPickledResult loads decompress c
        (flags, some (pickle dumps compress v c)) = (flags, some v) := by
  cases c <;> simp [pickle, unpickle, getPickledResult, hld, hdc]

/-- C10 witness: a concrete serializer (singleton list) and compressor
(reversal) round-trip the value 5 with the compress flag set. -/
theorem c10_pickle_roundtrip_witness :
    unpickle (fun l : List Nat => l.headD 0) List.reverse
        (pickle (fun n : Nat => [n]) List.reverse 5 true) true = 5 ∧
    getPickledResult (fun l : List Nat => l.headD 0) List.reverse true
        (7, some (pickle (fun n : Nat => [n]) List.reverse 5 true)) =
      (7, some 5) :=
  c10_pickle_roundtrip _ _ _ _ (fun _ => rfl)
    (fun p => List.reverse_reverse p) 5 true 7

end Txyam
